import Mathlib

/-!
Verification of the request-authentication and role-authorization gate in
`src/utils/extractor.rs` (actix-web middleware `AuthMiddleware` plus the
handler-side extractor `Authenticated`).

The middleware body (`AuthMiddleware::call`, lines 111-172) and the accessor
(`Authenticated::from_request`, lines 33-45) are embedded shallowly below.
External collaborators that live outside `src/` — the JWT decoder
(`token::decode_token`), the UUID parser (`uuid::Uuid::parse_str`, an external
crate) and the identity store (`UserService::get_user`) — are passed to the
embedded pipeline as function parameters, mirroring the spec's description of
them as external collaborators.  Strings are modelled as Lean strings under an
ASCII reading, so Rust's byte indices coincide with character indices.
-/

namespace AuthGate

/-- Modelled from the spec: the `UserRole` enumeration lives in
`models/user.rs`, which is not under `src/`.  The spec describes Role as "an
enumerated value ... compared by set membership" and its scenarios use the
roles Admin, Editor and Viewer; a fourth ordinary role is included so that the
enumeration is not exhausted by the named ones. -/
inductive UserRole where
  | admin
  | editor
  | viewer
  | user
deriving DecidableEq, Repr

/-- Modelled from the spec: `UserModel` lives in `models/user.rs`, not under
`src/`.  The spec requires "at least `{id, role}`". -/
structure UserModel where
  id : String
  role : UserRole
deriving DecidableEq, Repr

/-- The parts of an inbound `ServiceRequest` the middleware reads: the value of
the cookie named `token` (line 113) and the value of the `Authorization`
header (lines 116-117). -/
structure Request where
  cookieToken : Option String
  authHeader : Option String
deriving DecidableEq, Repr

/-- Result of the credential-extraction expression (lines 112-119).  `panic`
records that `split_at(7)` was reached with a header shorter than 7 bytes,
which aborts instead of returning. -/
inductive ExtractResult where
  | panic
  | missing
  | found (tok : String)
deriving DecidableEq, Repr

/-- Lines 112-119: `req.cookie("token").map(|c| c.value().to_string())
.or_else(|| headers.get(AUTHORIZATION).map(|h| h.to_str().unwrap()
.split_at(7).1.to_string()))`.  The cookie value is taken verbatim; the
header closure only runs when the cookie is absent; `split_at(7)` panics
when the header is shorter than 7 bytes and otherwise yields the suffix
starting at byte 7. -/
def AuthMiddleware.extractToken (req : Request) : ExtractResult :=
  match req.cookieToken with
  | some v => .found v
  | none =>
    match req.authHeader with
    | none => .missing
    | some h => if h.length < 7 then .panic else .found (h.drop 7)

/-- Modelled from the spec: the display strings of `ErrorMessage`
(`utils/error.rs`, not under `src/`).  Claims never depend on the exact
text, only on which variant is used where. -/
def ErrorMessage.tokenNotProvided : String := "You are not logged in, please provide token"

/-- Modelled from the spec: see `ErrorMessage.tokenNotProvided`. -/
def ErrorMessage.userNoLongerExist : String := "User belonging to this token no longer exists"

/-- Modelled from the spec: see `ErrorMessage.tokenNotProvided`. -/
def ErrorMessage.permissionDenied : String := "You are not allowed to perform this action"

/-- Observable outcome of one middleware invocation.  `rejected` carries the
HTTP status code of the actix error constructor used
(`ErrorUnauthorized` = 401, `ErrorForbidden` = 403,
`ErrorInternalServerError` = 500), the `status` field of the JSON body and
its `message` field.  `admitted` means the downstream service was invoked
with `user` bound.  `panicked` means an unguarded `unwrap`/slice aborted
the request task. -/
inductive Outcome where
  | panicked
  | rejected (httpStatus : Nat) (bodyStatus : String) (message : String)
  | admitted (user : UserModel)
deriving DecidableEq, Repr

/-- Everything observable about one run of `AuthMiddleware::call`:
the outcome, the subject ids sent to the identity store
(`UserService::get_user`, line 148-150), what was inserted into
`req.extensions_mut()` (line 160), and whether `srv.call(req)` ran
(line 161). -/
structure CallTrace where
  outcome : Outcome
  storeLookups : List String
  boundIdentity : Option UserModel
  handlerInvoked : Bool
deriving DecidableEq, Repr

/-- `AuthMiddleware::call` (lines 111-172), with the external collaborators as
parameters: `decode_token` is `token::decode_token` specialised to the
deployment secret (returns the embedded subject string or an error whose
`message` field is surfaced), `parse_uuid` is `uuid::Uuid::parse_str`
composed with `to_string` (canonical form, `none` on malformed input), and
`get_user` is the identity-store lookup (`.error` = infrastructure failure,
`.ok none` = no such account).  The 500 body produced through
`HttpError::server_error` lives in `utils/error.rs`, not under `src/`; its
`status` field follows the spec's wire contract (`"fail"`). -/
def AuthMiddleware.call
    (decode_token : String → Except String String)
    (parse_uuid : String → Option String)
    (get_user : String → Except String (Option UserModel))
    (allowed_roles : List UserRole)
    (req : Request) : CallTrace :=
  match AuthMiddleware.extractToken req with
  | .panic => ⟨.panicked, [], none, false⟩
  | .missing =>
    -- lines 121-127: ErrorUnauthorized(ErrorResponse{status:"fail", TokenNotProvided})
    ⟨.rejected 401 "fail" ErrorMessage.tokenNotProvided, [], none, false⟩
  | .found tok =>
    match decode_token tok with
    | .error msg =>
      -- lines 133-138: ErrorUnauthorized(ErrorResponse{status:"fail", e.message})
      ⟨.rejected 401 "fail" msg, [], none, false⟩
    | .ok userId =>
      match parse_uuid userId with
      | none =>
        -- line 146: uuid::Uuid::parse_str(user_id).unwrap() — panics on malformed subject
        ⟨.panicked, [], none, false⟩
      | some uid =>
        match get_user uid with
        | .error e =>
          -- line 151: ErrorInternalServerError(HttpError::server_error(e.to_string()))
          ⟨.rejected 500 "fail" e, [uid], none, false⟩
        | .ok none =>
          -- lines 153-156: ErrorUnauthorized(ErrorResponse{status:"fail", UserNoLongerExist})
          ⟨.rejected 401 "fail" ErrorMessage.userNoLongerExist, [uid], none, false⟩
        | .ok (some user) =>
          if user.role ∈ allowed_roles then
            -- lines 159-162: bind the user, then invoke the downstream service
            ⟨.admitted user, [uid], some user, true⟩
          else
            -- lines 163-169: ErrorForbidden(ErrorResponse{status:"fail", PermissionDenied})
            ⟨.rejected 403 "fail" ErrorMessage.permissionDenied, [uid], none, false⟩

/-- `Authenticated::from_request` (lines 33-45): read the `UserModel` bound in
the request's extensions; if present wrap it, otherwise fail with
`ErrorInternalServerError(HttpError::server_error("Authentication Error"))`,
modelled as status 500 plus the message. -/
def Authenticated.from_request (ext : Option UserModel) : Except (Nat × String) UserModel :=
  match ext with
  | some user => .ok user
  | none => .error (500, "Authentication Error")

/-- Modelled from the spec: a hexadecimal digit, for the well-formedness check
of spec section 3 ("must parse into a well-formed unique account identifier
(e.g., a 128-bit UUID)").  Used by `uuidCanonical`. -/
def hexDigit (c : Char) : Bool :=
  c.isDigit || ('a' ≤ c && c ≤ 'f') || ('A' ≤ c && c ≤ 'F')

/-- Modelled from the spec: canonical hyphenated UUID form (8-4-4-4-12 hex
digits).  `uuid::Uuid::parse_str` is an external crate outside `src/`; this
model accepts exactly the canonical textual form and stands in for it in
concrete instantiations. -/
def uuidCanonical (s : String) : Bool :=
  s.data.length == 36 &&
    (List.range 36).all fun i =>
      if i == 8 || i == 13 || i == 18 || i == 23 then s.data.getD i ' ' == '-'
      else hexDigit (s.data.getD i ' ')

/-- Modelled from the spec: `uuid::Uuid::parse_str` followed by `to_string`,
as used on lines 146-149, restricted to the canonical form accepted by
`uuidCanonical`. -/
def parseUuidModel (s : String) : Option String :=
  if uuidCanonical s then some s else none

/-- The credential extraction exactly as claim C8 words it, for the refinement
comparison with `AuthMiddleware.extractToken`: cookie value verbatim when
present; otherwise, when a header is present, "the header text after its
first 7 characters"; otherwise missing — with no further condition on the
header. -/
def claimedExtract (req : Request) : ExtractResult :=
  match req.cookieToken with
  | some v => .found v
  | none =>
    match req.authHeader with
    | none => .missing
    | some h => .found (h.drop 7)

/-- Exhaustive case analysis of one middleware run: every trace has one of the
eight branch shapes of `AuthMiddleware::call`. -/
lemma call_cases (d : String → Except String String) (p : String → Option String)
    (g : String → Except String (Option UserModel)) (roles : List UserRole) (req : Request) :
    (AuthMiddleware.extractToken req = .panic ∧
      AuthMiddleware.call d p g roles req = ⟨.panicked, [], none, false⟩) ∨
    (AuthMiddleware.extractToken req = .missing ∧
      AuthMiddleware.call d p g roles req =
        ⟨.rejected 401 "fail" ErrorMessage.tokenNotProvided, [], none, false⟩) ∨
    (∃ tok msg, AuthMiddleware.extractToken req = .found tok ∧ d tok = .error msg ∧
      AuthMiddleware.call d p g roles req = ⟨.rejected 401 "fail" msg, [], none, false⟩) ∨
    (∃ tok sub, AuthMiddleware.extractToken req = .found tok ∧ d tok = .ok sub ∧
      p sub = none ∧ AuthMiddleware.call d p g roles req = ⟨.panicked, [], none, false⟩) ∨
    (∃ tok sub uid e, AuthMiddleware.extractToken req = .found tok ∧ d tok = .ok sub ∧
      p sub = some uid ∧ g uid = .error e ∧
      AuthMiddleware.call d p g roles req = ⟨.rejected 500 "fail" e, [uid], none, false⟩) ∨
    (∃ tok sub uid, AuthMiddleware.extractToken req = .found tok ∧ d tok = .ok sub ∧
      p sub = some uid ∧ g uid = .ok none ∧
      AuthMiddleware.call d p g roles req =
        ⟨.rejected 401 "fail" ErrorMessage.userNoLongerExist, [uid], none, false⟩) ∨
    (∃ tok sub uid user, AuthMiddleware.extractToken req = .found tok ∧ d tok = .ok sub ∧
      p sub = some uid ∧ g uid = .ok (some user) ∧ user.role ∈ roles ∧
      AuthMiddleware.call d p g roles req = ⟨.admitted user, [uid], some user, true⟩) ∨
    (∃ tok sub uid user, AuthMiddleware.extractToken req = .found tok ∧ d tok = .ok sub ∧
      p sub = some uid ∧ g uid = .ok (some user) ∧ user.role ∉ roles ∧
      AuthMiddleware.call d p g roles req =
        ⟨.rejected 403 "fail" ErrorMessage.permissionDenied, [uid], none, false⟩) := by
  rcases h1 : AuthMiddleware.extractToken req with _ | _ | tok
  · exact Or.inl ⟨rfl, by simp only [AuthMiddleware.call, h1]⟩
  · exact Or.inr (Or.inl ⟨rfl, by simp only [AuthMiddleware.call, h1]⟩)
  rcases h2 : d tok with msg | sub
  · exact Or.inr (Or.inr (Or.inl ⟨tok, msg, rfl, h2, by simp only [AuthMiddleware.call, h1, h2]⟩))
  rcases h3 : p sub with _ | uid
  · exact Or.inr (Or.inr (Or.inr (Or.inl
      ⟨tok, sub, rfl, h2, h3, by simp only [AuthMiddleware.call, h1, h2, h3]⟩)))
  rcases h4 : g uid with e | ou
  · exact Or.inr (Or.inr (Or.inr (Or.inr (Or.inl
      ⟨tok, sub, uid, e, rfl, h2, h3, h4,
        by simp only [AuthMiddleware.call, h1, h2, h3, h4]⟩))))
  rcases ou with _ | user
  · exact Or.inr (Or.inr (Or.inr (Or.inr (Or.inr (Or.inl
      ⟨tok, sub, uid, rfl, h2, h3, h4,
        by simp only [AuthMiddleware.call, h1, h2, h3, h4]⟩)))))
  by_cases hm : user.role ∈ roles
  · exact Or.inr (Or.inr (Or.inr (Or.inr (Or.inr (Or.inr (Or.inl
      ⟨tok, sub, uid, user, rfl, h2, h3, h4, hm,
        by simp only [AuthMiddleware.call, h1, h2, h3, h4, if_pos hm]⟩))))))
  · exact Or.inr (Or.inr (Or.inr (Or.inr (Or.inr (Or.inr (Or.inr
      ⟨tok, sub, uid, user, rfl, h2, h3, h4, hm,
        by simp only [AuthMiddleware.call, h1, h2, h3, h4, if_neg hm]⟩))))))

/-- Claim C1: once a request reaches the role gate with a resolved account
record, the downstream handler is invoked iff the account's role is a member
of the route's allow-list (plain, order-independent list membership); when it
is not a member, the pipeline yields the 403 permission-denied response, no
matter how the account was otherwise resolved. -/
theorem role_gate_member_iff
    (d : String → Except String String) (p : String → Option String)
    (g : String → Except String (Option UserModel)) (roles : List UserRole) (req : Request)
    (tok sub uid : String) (user : UserModel)
    (hx : AuthMiddleware.extractToken req = .found tok)
    (hd : d tok = .ok sub)
    (hp : p sub = some uid)
    (hg : g uid = .ok (some user)) :
    ((AuthMiddleware.call d p g roles req).outcome = .admitted user ↔ user.role ∈ roles) ∧
    (user.role ∉ roles →
      (AuthMiddleware.call d p g roles req).outcome =
        .rejected 403 "fail" ErrorMessage.permissionDenied) := by
  by_cases hm : user.role ∈ roles <;>
    simp [AuthMiddleware.call, hx, hd, hp, hg, hm]

/-- Witness for C1: cookie credential, subject resolving to an Admin account,
allow-list [Admin, Editor] — the run is admitted. -/
theorem role_gate_member_iff_witness :
    (AuthMiddleware.call (fun _ => .ok "S1") some
        (fun _ => .ok (some ⟨"S1", .admin⟩)) [.admin, .editor] ⟨some "T1", none⟩).outcome =
      .admitted ⟨"S1", .admin⟩ := by
  exact (role_gate_member_iff (fun _ => .ok "S1") some
    (fun _ => .ok (some ⟨"S1", .admin⟩)) [.admin, .editor] ⟨some "T1", none⟩
    "T1" "S1" "S1" ⟨"S1", .admin⟩ rfl rfl rfl rfl).1.mpr (by decide)

/-- Claim C2 (code side): with no `token` cookie and an Authorization header
shorter than 7 characters, the middleware does NOT produce an authentication
error response — the unguarded `split_at(7)` on line 118 panics.  This holds
for every decoder, UUID parser, identity store and allow-list, since the
abort happens during extraction. -/
theorem short_auth_header_panics
    (d : String → Except String String) (p : String → Option String)
    (g : String → Except String (Option UserModel)) (roles : List UserRole) :
    (AuthMiddleware.call d p g roles ⟨none, some "Basic"⟩).outcome = .panicked := rfl

/-- Claim C3 (code side): a credential that passes token verification (the
decoder returns subject "not-a-uuid") but whose subject is not a well-formed
UUID does not produce a server-error response — the `unwrap` on
`uuid::Uuid::parse_str` at line 146 panics, for every identity store and
allow-list. -/
theorem malformed_subject_panics
    (g : String → Except String (Option UserModel)) (roles : List UserRole) :
    (AuthMiddleware.call (fun _ => .ok "not-a-uuid") parseUuidModel g roles
        ⟨some "T3", none⟩).outcome = .panicked := rfl

/-- Claim C4: a request with neither a `token` cookie nor an Authorization
header yields the 401 response with body status "fail" and the
token-not-provided message; the identity store is never queried
(`storeLookups = []`, for every store `g`) and the downstream handler is
never invoked (`handlerInvoked = false`). -/
theorem no_credential_rejected_401
    (d : String → Except String String) (p : String → Option String)
    (g : String → Except String (Option UserModel)) (roles : List UserRole) :
    AuthMiddleware.call d p g roles ⟨none, none⟩ =
      ⟨.rejected 401 "fail" ErrorMessage.tokenNotProvided, [], none, false⟩ := rfl

/-- Claim C5: after a verified subject reaches the lookup stage, the two
lookup failures are distinguished — account not found gives the 401
user-no-longer-exists response, an infrastructure error gives a 500 — and in
both cases the handler is not invoked and no identity is bound. -/
theorem lookup_not_found_vs_infra
    (d : String → Except String String) (p : String → Option String)
    (g : String → Except String (Option UserModel)) (roles : List UserRole) (req : Request)
    (tok sub uid : String)
    (hx : AuthMiddleware.extractToken req = .found tok)
    (hd : d tok = .ok sub)
    (hp : p sub = some uid) :
    (g uid = .ok none →
      AuthMiddleware.call d p g roles req =
        ⟨.rejected 401 "fail" ErrorMessage.userNoLongerExist, [uid], none, false⟩) ∧
    (∀ e, g uid = .error e →
      AuthMiddleware.call d p g roles req = ⟨.rejected 500 "fail" e, [uid], none, false⟩) := by
  constructor
  · intro hg
    simp only [AuthMiddleware.call, hx, hd, hp, hg]
  · intro e hg
    simp only [AuthMiddleware.call, hx, hd, hp, hg]

/-- Witness for C5: a store that answers "no such account" produces the 401
user-no-longer-exists rejection with the store queried once. -/
theorem lookup_not_found_vs_infra_witness :
    AuthMiddleware.call (fun _ => .ok "S4") some (fun _ => .ok none) [.admin]
        ⟨some "T4", none⟩ =
      ⟨.rejected 401 "fail" ErrorMessage.userNoLongerExist, ["S4"], none, false⟩ := by
  exact (lookup_not_found_vs_infra (fun _ => .ok "S4") some (fun _ => .ok none)
    [.admin] ⟨some "T4", none⟩ "T4" "S4" "S4" rfl rfl rfl).1 rfl

/-- Claim C6: an identity is bound into the request context iff the request
passed the whole pipeline including the role gate (extraction found a
credential, the decoder and UUID parse succeeded, the store returned that
account, and its role is in the allow-list); and every rejected request
short-circuits — the handler is not invoked and nothing is bound. -/
theorem bound_identity_iff_role_gate
    (d : String → Except String String) (p : String → Option String)
    (g : String → Except String (Option UserModel)) (roles : List UserRole) (req : Request) :
    (∀ u, (AuthMiddleware.call d p g roles req).boundIdentity = some u ↔
        ∃ tok sub uid, AuthMiddleware.extractToken req = .found tok ∧
          d tok = .ok sub ∧ p sub = some uid ∧ g uid = .ok (some u) ∧ u.role ∈ roles) ∧
    (∀ s b m, (AuthMiddleware.call d p g roles req).outcome = .rejected s b m →
        (AuthMiddleware.call d p g roles req).handlerInvoked = false ∧
        (AuthMiddleware.call d p g roles req).boundIdentity = none) := by
  rcases call_cases d p g roles req with
    ⟨h1, hc⟩ | ⟨h1, hc⟩ | ⟨tok, msg, h1, h2, hc⟩ | ⟨tok, sub, h1, h2, h3, hc⟩ |
    ⟨tok, sub, uid, e, h1, h2, h3, h4, hc⟩ | ⟨tok, sub, uid, h1, h2, h3, h4, hc⟩ |
    ⟨tok, sub, uid, user, h1, h2, h3, h4, hm, hc⟩ |
    ⟨tok, sub, uid, user, h1, h2, h3, h4, hm, hc⟩ <;> rw [hc] <;>
    constructor
  · intro u; simp [h1]
  · intro s b m hr; exact ⟨rfl, rfl⟩
  · intro u; simp [h1]
  · intro s b m hr; exact ⟨rfl, rfl⟩
  · intro u; simp [h1, h2]
  · intro s b m hr; exact ⟨rfl, rfl⟩
  · intro u; simp [h1, h2, h3]
  · intro s b m hr; exact ⟨rfl, rfl⟩
  · intro u; simp [h1, h2, h3, h4]
  · intro s b m hr; exact ⟨rfl, rfl⟩
  · intro u; simp [h1, h2, h3, h4]
  · intro s b m hr; exact ⟨rfl, rfl⟩
  · intro u
    constructor
    · intro hu
      rcases Option.some.inj hu with rfl
      exact ⟨tok, sub, uid, h1, h2, h3, h4, hm⟩
    · rintro ⟨tok2, sub2, uid2, e1, e2, e3, e4, e5⟩
      rw [h1] at e1
      rcases ExtractResult.found.inj e1 with rfl
      rw [h2] at e2
      rcases Except.ok.inj e2 with rfl
      rw [h3] at e3
      rcases Option.some.inj e3 with rfl
      rw [h4] at e4
      rcases Option.some.inj (Except.ok.inj e4) with rfl
      rfl
  · intro s b m hr; cases hr
  · intro u
    constructor
    · intro hu; cases hu
    · rintro ⟨tok2, sub2, uid2, e1, e2, e3, e4, e5⟩
      rw [h1] at e1
      rcases ExtractResult.found.inj e1 with rfl
      rw [h2] at e2
      rcases Except.ok.inj e2 with rfl
      rw [h3] at e3
      rcases Option.some.inj e3 with rfl
      rw [h4] at e4
      rcases Option.some.inj (Except.ok.inj e4) with rfl
      exact absurd e5 hm
  · intro s b m hr; exact ⟨rfl, rfl⟩

/-- Witness for C6: a Viewer account against an [Admin] allow-list is
rejected with 403, the handler does not run and no identity is bound. -/
theorem bound_identity_iff_role_gate_witness :
    (AuthMiddleware.call (fun _ => .ok "S2") some (fun _ => .ok (some ⟨"S2", .viewer⟩))
        [.admin] ⟨some "T2", none⟩).handlerInvoked = false ∧
    (AuthMiddleware.call (fun _ => .ok "S2") some (fun _ => .ok (some ⟨"S2", .viewer⟩))
        [.admin] ⟨some "T2", none⟩).boundIdentity = none := by
  exact (bound_identity_iff_role_gate (fun _ => .ok "S2") some
    (fun _ => .ok (some ⟨"S2", .viewer⟩)) [.admin] ⟨some "T2", none⟩).2
    403 "fail" ErrorMessage.permissionDenied rfl

/-- Claim C7: the handler-side accessor returns exactly the account record
bound by the gate whenever one is bound, and on an unbound context it fails
with the 500 server-error outcome, not a 401/403. -/
theorem accessor_returns_bound
    (d : String → Except String String) (p : String → Option String)
    (g : String → Except String (Option UserModel)) (roles : List UserRole) (req : Request) :
    (∀ u, (AuthMiddleware.call d p g roles req).boundIdentity = some u →
        Authenticated.from_request (AuthMiddleware.call d p g roles req).boundIdentity =
          .ok u) ∧
    Authenticated.from_request none = .error (500, "Authentication Error") := by
  refine ⟨fun u hu => ?_, rfl⟩
  rw [hu]
  rfl

/-- Witness for C7: an admitted Editor request — the accessor hands back the
very record the gate bound. -/
theorem accessor_returns_bound_witness :
    Authenticated.from_request
      (AuthMiddleware.call (fun _ => .ok "S7") some (fun _ => .ok (some ⟨"S7", .editor⟩))
        [.editor] ⟨some "T7", none⟩).boundIdentity = .ok ⟨"S7", .editor⟩ := by
  exact (accessor_returns_bound (fun _ => .ok "S7") some
    (fun _ => .ok (some ⟨"S7", .editor⟩)) [.editor] ⟨some "T7", none⟩).1 ⟨"S7", .editor⟩ rfl

/-- Counterexample for C8: on a cookie-less request with the 3-character
Authorization header "abc", the code's extraction panics while the claim's
wording ("the credential is exactly the header text after its first 7
characters") yields the empty credential — the two differ. -/
theorem extract_differs_from_claimed_on_short_header :
    AuthMiddleware.extractToken ⟨none, some "abc"⟩ = .panic ∧
    claimedExtract ⟨none, some "abc"⟩ = .found "" ∧
    AuthMiddleware.extractToken ⟨none, some "abc"⟩ ≠ claimedExtract ⟨none, some "abc"⟩ := by
  exact ⟨rfl, by decide, by decide⟩

/-- Claim C8 as amended: extraction is deterministic in its sources and
precedence — a present `token` cookie is taken verbatim even when a header
is also present; otherwise a header of at least 7 characters yields exactly
the text after its first 7 characters; with neither source the result is
missing; and a present header shorter than 7 characters panics instead of
yielding a credential. -/
theorem extract_precedence_amended :
    (∀ req v, req.cookieToken = some v → AuthMiddleware.extractToken req = .found v) ∧
    (∀ req h, req.cookieToken = none → req.authHeader = some h → 7 ≤ h.length →
      AuthMiddleware.extractToken req = .found (h.drop 7)) ∧
    (∀ req, req.cookieToken = none → req.authHeader = none →
      AuthMiddleware.extractToken req = .missing) ∧
    (∀ req h, req.cookieToken = none → req.authHeader = some h → h.length < 7 →
      AuthMiddleware.extractToken req = .panic) := by
  refine ⟨?_, ?_, ?_, ?_⟩
  · rintro ⟨c, a⟩ v hc; cases hc; rfl
  · rintro ⟨c, a⟩ h hc ha hlen; cases hc; cases ha
    simp [AuthMiddleware.extractToken, Nat.not_lt.mpr hlen]
  · rintro ⟨c, a⟩ hc ha; cases hc; cases ha; rfl
  · rintro ⟨c, a⟩ h hc ha hlen; cases hc; cases ha
    simp [AuthMiddleware.extractToken, hlen]

/-- Witness for C8 (amended): cookie "T8" wins over a simultaneous Bearer
header; a cookie-less Bearer header surrenders its suffix. -/
theorem extract_precedence_amended_witness :
    AuthMiddleware.extractToken ⟨some "T8", some "Bearer other"⟩ = .found "T8" ∧
    AuthMiddleware.extractToken ⟨none, some "Bearer XYZ"⟩ = .found "XYZ" := by
  constructor
  · exact extract_precedence_amended.1 ⟨some "T8", some "Bearer other"⟩ "T8" rfl
  · rw [extract_precedence_amended.2.1 ⟨none, some "Bearer XYZ"⟩ "Bearer XYZ" rfl rfl
      (by decide)]
    decide

/-- Claim C9: the admit/deny decision is a deterministic, state-free function
of the extracted credential, the collaborator functions (token decoder, UUID
parser, identity store) and the allow-list: any two requests from which the
same credential is extracted produce identical traces, and in particular two
runs on the same request with the same store agree.  The embedding is a pure
function, so there is no hidden state or caching across calls by
construction. -/
theorem decision_deterministic
    (d : String → Except String String) (p : String → Option String)
    (g : String → Except String (Option UserModel)) (roles : List UserRole)
    (r1 r2 : Request)
    (h : AuthMiddleware.extractToken r1 = AuthMiddleware.extractToken r2) :
    AuthMiddleware.call d p g roles r1 = AuthMiddleware.call d p g roles r2 := by
  simp only [AuthMiddleware.call, h]

/-- Witness for C9: the same cookie credential with and without an extra
Authorization header produces the same trace. -/
theorem decision_deterministic_witness :
    AuthMiddleware.call (fun _ => .ok "S9") some (fun _ => .ok (some ⟨"S9", .viewer⟩))
        [.admin] ⟨some "T9", none⟩ =
      AuthMiddleware.call (fun _ => .ok "S9") some (fun _ => .ok (some ⟨"S9", .viewer⟩))
        [.admin] ⟨some "T9", some "Bearer other"⟩ := by
  exact decision_deterministic (fun _ => .ok "S9") some (fun _ => .ok (some ⟨"S9", .viewer⟩))
    [.admin] ⟨some "T9", none⟩ ⟨some "T9", some "Bearer other"⟩ rfl

/-- Claim C10: the Authorization scheme is never inspected — for any
cookie-less request whose header has at least 7 characters, the extracted
credential is the header minus its first 7 characters, whatever those
characters are. -/
theorem header_scheme_not_validated (h : String) (hlen : 7 ≤ h.length) :
    AuthMiddleware.extractToken ⟨none, some h⟩ = .found (h.drop 7) := by
  simp [AuthMiddleware.extractToken, Nat.not_lt.mpr hlen]

/-- Witness for C10: a Basic-scheme header is processed like a bearer token;
its text after the first 7 characters becomes the credential. -/
theorem header_scheme_not_validated_witness :
    AuthMiddleware.extractToken ⟨none, some "Basic abcdef"⟩ = .found "bcdef" := by
  rw [header_scheme_not_validated "Basic abcdef" (by decide)]
  decide

end AuthGate
